import Mathlib

/-!
Verification of the data-persistence and record-lifecycle subsystem of the
ALTMAN questionnaire application, as a shallow embedding of the Python
source under a functional model:

* `update_altmans_summary` embeds `MainWindow.update_altmans_summary`
  (ui/main_window.py, lines 284-301): the five slider values are filtered
  by `value > 0` and summed.
* `insert_into_altman_table`, `guardedInsertExec`, `insertBodyResult`
  embed `DataManager.insert_into_altman_table`
  (database/database_manager.py, lines 110-167): the fixed SQL text, the
  bind list, the placeholder-count guard, and the try/except handlers that
  convert failures into log entries.
* `initializeDatabase` embeds `initialize_database`
  (database/database_manager.py, lines 13-38) over an explicit file-system
  state.
* `setup_altman_table` embeds `DataManager.setup_altman_table`
  (database/database_manager.py, lines 75-108) over an explicit database
  schema state.
* `MainWindow.closeEvent` / `close_database` embed the window-teardown
  path (ui/main_window.py, lines 382-397; database_manager.py 169-189).

Effects that Python performs through Qt (query execution, file I/O) are
modelled by explicit state passing; exceptions are modelled by `Except`
and fault-injection parameters, with the public operations defined as the
`try/except` catch of the fallible body.
-/

set_option autoImplicit false

/-- A value bound to a SQL placeholder: the Python bind list has type
`List[Union[str, int]]`. -/
inductive SqlValue where
  | text (v : String)
  | int (v : Int)
deriving DecidableEq, Repr

/-- One row of `altman_refined_table`, with the columns declared by
`setup_altman_table`. -/
structure AltmanRow where
  id : Nat
  altman_date : String
  altman_time : String
  altman_question : Int
  altman_question_2 : Int
  altman_question_3 : Int
  altman_question_4 : Int
  altman_question_5 : Int
  altmans_summary : Int
deriving DecidableEq, Repr

/-- The contents of `altman_refined_table`. -/
structure AltmanTable where
  rows : List AltmanRow
deriving DecidableEq, Repr

/-- Log entries produced by `logger.error` calls in the database layer. -/
inductive LogEntry where
  | valueErrorEntry (expected got : Nat)
  | insertExecError (msg : String)
  | insertOtherError (msg : String)
  | createDbError
  | bootOtherError (msg : String)
deriving DecidableEq, Repr

/-- A Python exception as raised inside the database layer: the code
distinguishes `ValueError` from every other `Exception`. -/
inductive PyError where
  | valueError (expected got : Nat)
  | otherError (msg : String)
deriving DecidableEq, Repr

/-- A storage-layer fault injected into `insert_into_altman_table`:
`execFails msg` models `query.exec()` returning `False` with that error
text, `raises msg` models an arbitrary exception thrown by the driver. -/
inductive Fault where
  | ok
  | execFails (msg : String)
  | raises (msg : String)
deriving DecidableEq, Repr

/-- `MainWindow.update_altmans_summary` (ui/main_window.py 284-301):
`values = [slider.value() for slider in sliders if slider.value() > 0]`,
`altmans_sum = sum(values)`. -/
def update_altmans_summary (q1 q2 q3 q4 q5 : Int) : Int :=
  (([q1, q2, q3, q4, q5]).filter (fun v => decide (v > 0))).sum

/-- The spec's wording of the summary rule, stated independently of the
list comprehension: every answer strictly greater than 0 contributes its
value, every other answer contributes nothing. -/
def summarySpec (q1 q2 q3 q4 q5 : Int) : Int :=
  (if q1 > 0 then q1 else 0) + (if q2 > 0 then q2 else 0) +
  (if q3 > 0 then q3 else 0) + (if q4 > 0 then q4 else 0) +
  (if q5 > 0 then q5 else 0)

/-- The SQL text built by `insert_into_altman_table`
(database_manager.py 141-150); the Python f-string performs no
substitution, so this is the literal statement text. -/
def insertSql : String :=
  "INSERT INTO altman_refined_table(\n            altman_date,\n            altman_time,\n            altman_question,\n            altman_question_2,\n            altman_question_3,\n            altman_question_4,\n            altman_question_5,\n            altmans_summary\n            ) VALUES (?, ?, ?, ?, ?, ?, ?, ?)"

/-- Python `sql.count('?')`: the number of placeholder characters in the
statement text. -/
def placeholderCount (sql : String) : Nat :=
  sql.toList.count '?'

/-- The bind list `bind_values` (database_manager.py 151-153). -/
def bindValues (altman_date altman_time : String)
    (altman_question altman_question_2 altman_question_3
     altman_question_4 altman_question_5 altmans_summary : Int) :
    List SqlValue :=
  [SqlValue.text altman_date, SqlValue.text altman_time,
   SqlValue.int altman_question, SqlValue.int altman_question_2,
   SqlValue.int altman_question_3, SqlValue.int altman_question_4,
   SqlValue.int altman_question_5, SqlValue.int altmans_summary]

/-- The id SQLite assigns to the next inserted row of the
AUTOINCREMENT table: one more than the largest id present, 1 for an
empty table. -/
def nextId (t : AltmanTable) : Nat :=
  (t.rows.map AltmanRow.id).foldr max 0 + 1

/-- Successful execution of the prepared INSERT: the bind values, in
column order, become one appended row carrying the fresh id. -/
def execInsert (t : AltmanTable) (binds : List SqlValue) : AltmanTable :=
  match binds with
  | [SqlValue.text d, SqlValue.text tm, SqlValue.int q1, SqlValue.int q2,
     SqlValue.int q3, SqlValue.int q4, SqlValue.int q5, SqlValue.int s] =>
      ⟨t.rows ++ [⟨nextId t, d, tm, q1, q2, q3, q4, q5, s⟩]⟩
  | _ => t

/-- The body of the `try` block of `insert_into_altman_table`
(database_manager.py 154-163): if the placeholder count disagrees with
the bind count a `ValueError` is raised before execution; otherwise
execution is attempted — a failing `query.exec()` is logged, an
arbitrary driver exception propagates out of the body. -/
def insertBodyResult (sql : String) (binds : List SqlValue) (fault : Fault)
    (t : AltmanTable) : Except PyError (AltmanTable × List LogEntry) :=
  if placeholderCount sql ≠ binds.length then
    Except.error (PyError.valueError (placeholderCount sql) binds.length)
  else
    match fault with
    | Fault.raises m => Except.error (PyError.otherError m)
    | Fault.execFails m => Except.ok (t, [LogEntry.insertExecError m])
    | Fault.ok => Except.ok (execInsert t binds, [])

/-- The `except ValueError` / `except Exception` handlers
(database_manager.py 164-167): each caught error becomes one log entry. -/
def logOfInsertError : PyError → LogEntry
  | PyError.valueError e g => LogEntry.valueErrorEntry e g
  | PyError.otherError m => LogEntry.insertOtherError m

/-- Lines 154-167 of database_manager.py, generalized over the statement
text and bind list they receive: the guarded execution wrapped in its
exception handlers. -/
def guardedInsertExec (sql : String) (binds : List SqlValue) (fault : Fault)
    (t : AltmanTable) : AltmanTable × List LogEntry :=
  match insertBodyResult sql binds fault t with
  | Except.ok r => r
  | Except.error e => (t, [logOfInsertError e])

/-- `DataManager.insert_into_altman_table` (database_manager.py 110-167):
the guarded execution applied to the fixed SQL text and the bind list
built from the eight parameters. -/
def insert_into_altman_table (fault : Fault) (t : AltmanTable)
    (altman_date altman_time : String)
    (altman_question altman_question_2 altman_question_3
     altman_question_4 altman_question_5 altmans_summary : Int) :
    AltmanTable × List LogEntry :=
  guardedInsertExec insertSql
    (bindValues altman_date altman_time altman_question altman_question_2
      altman_question_3 altman_question_4 altman_question_5 altmans_summary)
    fault t

/-- The file system: a map from path to byte content, `none` when the
path does not exist. -/
def FileSystem : Type := String → Option String

/-- `os.path.exists`. -/
def pathExists (fs : FileSystem) (p : String) : Bool :=
  (fs p).isSome

/-- Writing a file at a path: `shutil.copy`'s effect on the target path,
or the driver creating a fresh file there. -/
def writeFile (fs : FileSystem) (p : String) (c : String) : FileSystem :=
  fun q => if q = p then some c else fs q

/-- A path's byte content (missing paths read as empty). -/
def readFile (fs : FileSystem) (p : String) : String :=
  (fs p).getD ""

/-- The content of a database file freshly created by opening and closing
a QSQLITE connection against a nonexistent path: an empty file. -/
def emptyDbContent : String := ""

/-- A fault injected into `initialize_database`: `openFails` models
`db.open()` returning `False`, `copyRaises` models `shutil.copy`
raising. -/
inductive BootFault where
  | ok
  | openFails
  | copyRaises (msg : String)
deriving DecidableEq, Repr

/-- The body of the `try` block of `initialize_database`
(database_manager.py 28-36): an existing target is left alone; otherwise
the template is copied when present, else a fresh file is created by the
driver (a failed open is logged and no file appears). -/
def initializeBody (db_path target_db_path : String) (fault : BootFault)
    (fs : FileSystem) : Except PyError (FileSystem × List LogEntry) :=
  if pathExists fs target_db_path then Except.ok (fs, [])
  else if pathExists fs db_path then
    match fault with
    | BootFault.copyRaises m => Except.error (PyError.otherError m)
    | _ => Except.ok (writeFile fs target_db_path (readFile fs db_path), [])
  else
    match fault with
    | BootFault.openFails => Except.ok (fs, [LogEntry.createDbError])
    | _ => Except.ok (writeFile fs target_db_path emptyDbContent, [])

/-- The message of a caught exception, as formatted into the log. -/
def pyMsg : PyError → String
  | PyError.valueError _ _ => "ValueError"
  | PyError.otherError m => m

/-- `initialize_database` (database_manager.py 13-38): the body wrapped
in `except Exception`, converting any raise into a log entry. -/
def initializeDatabase (db_path target_db_path : String) (fault : BootFault)
    (fs : FileSystem) : FileSystem × List LogEntry :=
  match initializeBody db_path target_db_path fault fs with
  | Except.ok r => r
  | Except.error e => (fs, [LogEntry.bootOtherError (pyMsg e)])

/-- A table in the SQLite database file: name, declared columns, stored
rows. -/
structure SqlTable where
  name : String
  columns : List String
  rows : List (List SqlValue)
deriving DecidableEq, Repr

/-- The database file's schema state: the list of its tables. -/
structure Database where
  tables : List SqlTable
deriving DecidableEq, Repr

/-- The columns declared by the CREATE TABLE statement of
`setup_altman_table` (database_manager.py 95-106). -/
def altmanColumns : List String :=
  ["id", "altman_date", "altman_time", "altman_question",
   "altman_question_2", "altman_question_3", "altman_question_4",
   "altman_question_5", "altmans_summary"]

/-- `CREATE TABLE IF NOT EXISTS`: a no-op when a table of that name
exists, otherwise appends a new empty table with the declared columns. -/
def createTableIfAbsent (db : Database) (nm : String) (cols : List String) :
    Database :=
  if db.tables.any (fun t => t.name == nm) then db
  else ⟨db.tables ++ [⟨nm, cols, []⟩]⟩

/-- `DataManager.setup_altman_table` (database_manager.py 75-108). -/
def setup_altman_table (db : Database) : Database :=
  createTableIfAbsent db "altman_refined_table" altmanColumns

/-- `DataManager.setup_tables` (database_manager.py 67-73): only the
Altman table is set up. -/
def setup_tables (db : Database) : Database :=
  setup_altman_table db

/-- A freshly bootstrapped database file holds no tables. -/
def emptyDatabase : Database := ⟨[]⟩

/-- The Qt connection handle: only its open/closed state matters here. -/
structure Connection where
  isOpen : Bool
deriving DecidableEq, Repr

/-- `DataManager`: the connection it holds and the database it manages. -/
structure DataManager where
  db : Connection
  dbState : Database
deriving DecidableEq, Repr

/-- `DataManager.__init__` (database_manager.py 43-65): opens the
connection and runs `setup_tables`. -/
def DataManager.construct (d : Database) : DataManager :=
  ⟨⟨true⟩, setup_tables d⟩

/-- Window settings persisted via QSettings. -/
structure Settings where
  geometry : Option String
  windowState : Option String
deriving DecidableEq, Repr

/-- The state of `MainWindow` relevant to teardown: its database
manager, its QSettings store, and its current geometry and window
state. -/
structure MainWindow where
  db_manager : DataManager
  settings : Settings
  geometry : String
  windowState : String
deriving DecidableEq, Repr

/-- `MainWindow.__init__` (ui/main_window.py 61-83): constructs the
`DataManager` — which opens the connection — and starts from the given
geometry and window state. -/
def MainWindow.construct (d : Database) (geo ws : String) : MainWindow :=
  ⟨DataManager.construct d, ⟨none, none⟩, geo, ws⟩

/-- `MainWindow.save_state` (ui/main_window.py 338-358): stores geometry
and window state into settings; it does not touch the database
manager. -/
def MainWindow.save_state (w : MainWindow) : MainWindow :=
  { w with settings := ⟨some w.geometry, some w.windowState⟩ }

/-- `MainWindow.closeEvent` (ui/main_window.py 382-397): the close event
handler only calls `save_state`; no database call appears in it. -/
def MainWindow.closeEvent (w : MainWindow) : MainWindow :=
  w.save_state

/-- The module-level `close_database` (database_manager.py 169-189):
closes the connection if it is open. It is defined at module scope
(dedented out of the class body) and no code in the repository calls
it. -/
def close_database (dm : DataManager) : DataManager :=
  if dm.db.isOpen then { dm with db := ⟨false⟩ } else dm

/-- A concrete file system holding only a template file, used to witness
the bootstrap theorems. -/
def fsTpl : FileSystem :=
  fun p => if p = "tpl" then some "TEMPLATE" else none

/-- C1: the committed summary equals the sum of exactly those answers
strictly greater than 0; in particular `(0,2,0,3,0)` stores `5` and
`(0,0,0,0,0)` stores `0`. -/
theorem C1_summary_filter_sum :
    (∀ q1 q2 q3 q4 q5 : Int,
      update_altmans_summary q1 q2 q3 q4 q5 = summarySpec q1 q2 q3 q4 q5) ∧
    update_altmans_summary 0 2 0 3 0 = 5 ∧
    update_altmans_summary 0 0 0 0 0 = 0 := by
  refine ⟨?_, by decide, by decide⟩
  intro q1 q2 q3 q4 q5
  simp only [update_altmans_summary, summarySpec, List.filter, List.sum_cons,
    List.sum_nil]
  by_cases h1 : q1 > 0 <;> by_cases h2 : q2 > 0 <;> by_cases h3 : q3 > 0 <;>
    by_cases h4 : q4 > 0 <;> by_cases h5 : q5 > 0 <;>
    simp [h1, h2, h3, h4, h5] <;> ring

/-- C10: when all five answers are non-negative (as slider range [0,4]
guarantees), the zero-exclusion filter never changes the result: the
filtered sum equals the plain sum of all five values. -/
theorem C10_filter_sum_eq_plain_sum (q1 q2 q3 q4 q5 : Int)
    (h1 : 0 ≤ q1) (h2 : 0 ≤ q2) (h3 : 0 ≤ q3) (h4 : 0 ≤ q4) (h5 : 0 ≤ q5) :
    update_altmans_summary q1 q2 q3 q4 q5 = q1 + q2 + q3 + q4 + q5 := by
  simp only [update_altmans_summary, List.filter, List.sum_cons, List.sum_nil]
  rcases lt_or_eq_of_le h1 with h1' | h1' <;>
    rcases lt_or_eq_of_le h2 with h2' | h2' <;>
    rcases lt_or_eq_of_le h3 with h3' | h3' <;>
    rcases lt_or_eq_of_le h4 with h4' | h4' <;>
    rcases lt_or_eq_of_le h5 with h5' | h5' <;>
    simp_all <;> omega

/-- Witness for C10 at the concrete in-range input `(0,2,0,3,0)`. -/
theorem C10_filter_sum_eq_plain_sum_witness :
    update_altmans_summary 0 2 0 3 0 = 0 + 2 + 0 + 3 + 0 :=
  C10_filter_sum_eq_plain_sum 0 2 0 3 0 (by decide) (by decide) (by decide)
    (by decide) (by decide)

/-- Every element of a list of naturals is bounded by its `foldr max 0`. -/
theorem le_foldr_max {l : List Nat} {x : Nat} (hx : x ∈ l) :
    x ≤ l.foldr max 0 := by
  induction l with
  | nil => cases hx
  | cons a as ih =>
    rcases List.mem_cons.mp hx with rfl | hx'
    · exact le_max_left _ _
    · exact le_trans (ih hx') (le_max_right _ _)

/-- For a nonempty list of naturals, `foldr max 0` is attained by some
element. -/
theorem foldr_max_mem {l : List Nat} (h : l ≠ []) :
    l.foldr max 0 ∈ l := by
  induction l with
  | nil => exact absurd rfl h
  | cons a as ih =>
    cases as with
    | nil => simp
    | cons b bs =>
      rw [List.foldr_cons]
      rcases le_total a (List.foldr max 0 (b :: bs)) with hle | hle
      · rw [max_eq_right hle]
        exact List.mem_cons_of_mem _ (ih (by simp))
      · rw [max_eq_left hle]
        exact List.mem_cons_self _ _

set_option maxRecDepth 40000 in
/-- The fixed statement text contains exactly 8 placeholders. -/
theorem placeholderCount_insertSql : placeholderCount insertSql = 8 := by
  decide

/-- A fault-free insert call reduces to appending the freshly numbered
row: the guard passes and `query.exec()` succeeds. -/
theorem insert_ok_eq (t : AltmanTable) (d tm : String)
    (q1 q2 q3 q4 q5 s : Int) :
    insert_into_altman_table Fault.ok t d tm q1 q2 q3 q4 q5 s =
      (⟨t.rows ++ [⟨nextId t, d, tm, q1, q2, q3, q4, q5, s⟩]⟩, []) := by
  simp [insert_into_altman_table, guardedInsertExec, insertBodyResult,
    placeholderCount_insertSql, bindValues, execInsert]

/-- C2: a fault-free insert appends exactly one row whose non-id columns
read back as the supplied values, leaves every existing row unchanged,
and assigns an id one greater than the previous maximum id (1 when the
table was empty). -/
theorem C2_insert_appends_one_row (t : AltmanTable) (d tm : String)
    (q1 q2 q3 q4 q5 s : Int) :
    ∃ row : AltmanRow,
      insert_into_altman_table Fault.ok t d tm q1 q2 q3 q4 q5 s =
        (⟨t.rows ++ [row]⟩, []) ∧
      row.altman_date = d ∧ row.altman_time = tm ∧
      row.altman_question = q1 ∧ row.altman_question_2 = q2 ∧
      row.altman_question_3 = q3 ∧ row.altman_question_4 = q4 ∧
      row.altman_question_5 = q5 ∧ row.altmans_summary = s ∧
      (t.rows = [] → row.id = 1) ∧
      (∀ r ∈ t.rows, r.id < row.id) ∧
      (t.rows ≠ [] → ∃ r ∈ t.rows, row.id = r.id + 1) := by
  refine ⟨⟨nextId t, d, tm, q1, q2, q3, q4, q5, s⟩,
    insert_ok_eq t d tm q1 q2 q3 q4 q5 s,
    rfl, rfl, rfl, rfl, rfl, rfl, rfl, rfl, ?_, ?_, ?_⟩
  · intro he
    simp [nextId, he]
  · intro r hr
    have : r.id ≤ (t.rows.map AltmanRow.id).foldr max 0 :=
      le_foldr_max (List.mem_map_of_mem AltmanRow.id hr)
    simpa [nextId] using Nat.lt_succ_of_le this
  · intro hne
    have hmap : t.rows.map AltmanRow.id ≠ [] := by
      simpa using hne
    have hmem := foldr_max_mem hmap
    rcases List.mem_map.mp hmem with ⟨r, hr, hid⟩
    exact ⟨r, hr, by simp [nextId, hid]⟩

/-- C3: whenever the placeholder count of the statement text differs
from the number of bound values, the statement is never executed — the
table is unchanged — and the mismatch is reported as a logged
`ValueError`. -/
theorem C3_param_mismatch_never_executes (sql : String)
    (binds : List SqlValue) (fault : Fault) (t : AltmanTable)
    (h : placeholderCount sql ≠ binds.length) :
    guardedInsertExec sql binds fault t =
      (t, [LogEntry.valueErrorEntry (placeholderCount sql) binds.length]) := by
  simp [guardedInsertExec, insertBodyResult, h, logOfInsertError]

/-- Witness for C3: a statement with 2 placeholders and 1 bound value is
rejected without touching the empty table. -/
theorem C3_param_mismatch_never_executes_witness :
    placeholderCount "VALUES (?, ?)" ≠ [SqlValue.int 1].length ∧
    guardedInsertExec "VALUES (?, ?)" [SqlValue.int 1] Fault.ok ⟨[]⟩ =
      (⟨[]⟩, [LogEntry.valueErrorEntry 2 1]) :=
  ⟨by decide,
   C3_param_mismatch_never_executes "VALUES (?, ?)" [SqlValue.int 1]
     Fault.ok ⟨[]⟩ (by decide)⟩

/-- C8: when at least one answer value lies outside [0,4], the insert
neither raises nor rejects: the row is appended with all values stored
verbatim and the log stays empty. -/
theorem C8_out_of_range_stored_verbatim (t : AltmanTable) (d tm : String)
    (q1 q2 q3 q4 q5 s : Int)
    (_h : ¬(0 ≤ q1 ∧ q1 ≤ 4) ∨ ¬(0 ≤ q2 ∧ q2 ≤ 4) ∨ ¬(0 ≤ q3 ∧ q3 ≤ 4) ∨
          ¬(0 ≤ q4 ∧ q4 ≤ 4) ∨ ¬(0 ≤ q5 ∧ q5 ≤ 4)) :
    insert_into_altman_table Fault.ok t d tm q1 q2 q3 q4 q5 s =
      (⟨t.rows ++ [⟨nextId t, d, tm, q1, q2, q3, q4, q5, s⟩]⟩, []) :=
  insert_ok_eq t d tm q1 q2 q3 q4 q5 s

/-- Witness for C8: answer value 9 on the first question is accepted and
stored verbatim. -/
theorem C8_out_of_range_stored_verbatim_witness :
    insert_into_altman_table Fault.ok ⟨[]⟩ "2024-01-01" "10:00" 9 0 0 0 0 9 =
      (⟨[⟨1, "2024-01-01", "10:00", 9, 0, 0, 0, 0, 9⟩]⟩, []) :=
  C8_out_of_range_stored_verbatim ⟨[]⟩ "2024-01-01" "10:00" 9 0 0 0 0 9
    (Or.inl (by decide))

/-- C9: the parameter-count mismatch branch is unreachable in
`insert_into_altman_table`: the fixed SQL text holds exactly 8
placeholders, the bind list always has exactly 8 elements, the guard
condition is false for every input, and no run — under any fault — ever
produces the `ValueError` log entry. -/
theorem C9_guard_unreachable :
    placeholderCount insertSql = 8 ∧
    (∀ (d tm : String) (q1 q2 q3 q4 q5 s : Int),
      (bindValues d tm q1 q2 q3 q4 q5 s).length = 8 ∧
      ¬(placeholderCount insertSql ≠
          (bindValues d tm q1 q2 q3 q4 q5 s).length)) ∧
    (∀ (fault : Fault) (t : AltmanTable) (d tm : String)
       (q1 q2 q3 q4 q5 s : Int) (e g : Nat),
      LogEntry.valueErrorEntry e g ∉
        (insert_into_altman_table fault t d tm q1 q2 q3 q4 q5 s).2) := by
  refine ⟨placeholderCount_insertSql, ?_, ?_⟩
  · intro d tm q1 q2 q3 q4 q5 s
    exact ⟨rfl, by simp [placeholderCount_insertSql, bindValues]⟩
  · intro fault t d tm q1 q2 q3 q4 q5 s e g
    cases fault <;>
      simp [insert_into_altman_table, guardedInsertExec, insertBodyResult,
        placeholderCount_insertSql, bindValues, logOfInsertError]

/-- C4: after a fault-free bootstrap the target file exists, its contents
are the prior contents when the target already existed, else a
byte-for-byte copy of the template when the template existed, else the
fresh empty database content; no other path changes, and a second call in
a row is a no-op. -/
theorem C4_bootstrap_contents (db_path target_db_path : String)
    (fs : FileSystem) :
    (pathExists fs target_db_path = true →
      initializeDatabase db_path target_db_path BootFault.ok fs = (fs, [])) ∧
    (pathExists fs target_db_path = false → pathExists fs db_path = true →
      readFile (initializeDatabase db_path target_db_path BootFault.ok fs).1
          target_db_path = readFile fs db_path ∧
      ∀ p, p ≠ target_db_path →
        (initializeDatabase db_path target_db_path BootFault.ok fs).1 p =
          fs p) ∧
    (pathExists fs target_db_path = false → pathExists fs db_path = false →
      readFile (initializeDatabase db_path target_db_path BootFault.ok fs).1
          target_db_path = emptyDbContent ∧
      ∀ p, p ≠ target_db_path →
        (initializeDatabase db_path target_db_path BootFault.ok fs).1 p =
          fs p) ∧
    pathExists (initializeDatabase db_path target_db_path BootFault.ok fs).1
        target_db_path = true ∧
    initializeDatabase db_path target_db_path BootFault.ok
        (initializeDatabase db_path target_db_path BootFault.ok fs).1 =
      ((initializeDatabase db_path target_db_path BootFault.ok fs).1, []) := by
  cases hb1 : pathExists fs target_db_path with
  | true =>
    have he : initializeDatabase db_path target_db_path BootFault.ok fs =
        (fs, []) := by
      simp [initializeDatabase, initializeBody, hb1]
    refine ⟨fun _ => he, ?_, ?_, ?_, ?_⟩
    · intro hfalse _
      simp [hb1] at hfalse
    · intro hfalse _
      simp [hb1] at hfalse
    · rw [he]; exact hb1
    · rw [he]
      simp [initializeDatabase, initializeBody, hb1]
  | false =>
    cases hb2 : pathExists fs db_path with
    | true =>
      have he : initializeDatabase db_path target_db_path BootFault.ok fs =
          (writeFile fs target_db_path (readFile fs db_path), []) := by
        simp [initializeDatabase, initializeBody, hb1, hb2]
      have hex : pathExists
          (writeFile fs target_db_path (readFile fs db_path))
          target_db_path = true := by
        simp [pathExists, writeFile]
      refine ⟨?_, ?_, ?_, ?_, ?_⟩
      · intro htrue
        simp [hb1] at htrue
      · intro _ _
        refine ⟨?_, ?_⟩
        · rw [he]; simp [readFile, writeFile]
        · intro p hp
          rw [he]; simp [writeFile, hp]
      · intro _ hfalse
        simp [hb2] at hfalse
      · rw [he]; exact hex
      · rw [he]
        simp [initializeDatabase, initializeBody, hex]
    | false =>
      have he : initializeDatabase db_path target_db_path BootFault.ok fs =
          (writeFile fs target_db_path emptyDbContent, []) := by
        simp [initializeDatabase, initializeBody, hb1, hb2]
      have hex : pathExists (writeFile fs target_db_path emptyDbContent)
          target_db_path = true := by
        simp [pathExists, writeFile]
      refine ⟨?_, ?_, ?_, ?_, ?_⟩
      · intro htrue
        simp [hb1] at htrue
      · intro _ htrue
        simp [hb2] at htrue
      · intro _ _
        refine ⟨?_, ?_⟩
        · rw [he]; simp [readFile, writeFile]
        · intro p hp
          rw [he]; simp [writeFile, hp]
      · rw [he]; exact hex
      · rw [he]
        simp [initializeDatabase, initializeBody, hex]

/-- Witness for C4 on the concrete file system holding only the template
file: the target gets the template's content and exists afterwards. -/
theorem C4_bootstrap_contents_witness :
    readFile (initializeDatabase "tpl" "tgt" BootFault.ok fsTpl).1 "tgt" =
      readFile fsTpl "tpl" ∧
    pathExists (initializeDatabase "tpl" "tgt" BootFault.ok fsTpl).1 "tgt" =
      true :=
  ⟨((C4_bootstrap_contents "tpl" "tgt" fsTpl).2.1 rfl rfl).1,
   (C4_bootstrap_contents "tpl" "tgt" fsTpl).2.2.2.1⟩

/-- C5: `setup_altman_table` is idempotent — a second call leaves the
schema and all stored rows of every table unchanged — and on a freshly
bootstrapped database it leaves exactly one table,
`altman_refined_table`, with exactly the declared columns. -/
theorem C5_schema_ensure_idempotent :
    (∀ db : Database,
      setup_altman_table (setup_altman_table db) = setup_altman_table db) ∧
    (setup_altman_table emptyDatabase).tables =
      [⟨"altman_refined_table", altmanColumns, []⟩] := by
  constructor
  · intro db
    by_cases h : db.tables.any (fun t => t.name == "altman_refined_table")
    · simp [setup_altman_table, createTableIfAbsent, h]
    · simp [setup_altman_table, createTableIfAbsent, h, List.any_append]
  · rfl

/-- C6: every storage-layer failure inside `initialize_database` and
`insert_into_altman_table` is caught at the operation boundary and
converted into a single log entry on an unchanged state — the raised
exception never reaches the caller. -/
theorem C6_failures_logged_not_raised :
    (∀ (db_path target_db_path : String) (fault : BootFault)
       (fs : FileSystem) (e : PyError),
      initializeBody db_path target_db_path fault fs = Except.error e →
      initializeDatabase db_path target_db_path fault fs =
        (fs, [LogEntry.bootOtherError (pyMsg e)])) ∧
    (∀ (sql : String) (binds : List SqlValue) (fault : Fault)
       (t : AltmanTable) (e : PyError),
      insertBodyResult sql binds fault t = Except.error e →
      guardedInsertExec sql binds fault t = (t, [logOfInsertError e])) := by
  constructor
  · intro a b fault fs e h
    simp [initializeDatabase, h]
  · intro sql binds fault t e h
    simp [guardedInsertExec, h]

/-- Witness for C6: a raising `shutil.copy` and a raising driver call
each end as one log entry with the state unchanged. -/
theorem C6_failures_logged_not_raised_witness :
    initializeDatabase "tpl" "tgt" (BootFault.copyRaises "disk full")
        fsTpl = (fsTpl, [LogEntry.bootOtherError "disk full"]) ∧
    guardedInsertExec "?" [SqlValue.int 1] (Fault.raises "boom") ⟨[]⟩ =
      (⟨[]⟩, [LogEntry.insertOtherError "boom"]) :=
  ⟨C6_failures_logged_not_raised.1 "tpl" "tgt"
     (BootFault.copyRaises "disk full") fsTpl
     (PyError.otherError "disk full") rfl,
   C6_failures_logged_not_raised.2 "?" [SqlValue.int 1]
     (Fault.raises "boom") ⟨[]⟩ (PyError.otherError "boom") rfl⟩

/-- C7 counterexample: on a freshly constructed window, after
`closeEvent` completes the connection opened by the `DataManager`
constructor is still open — `closeEvent` only saves the settings state,
so the claim that the connection is no longer open after teardown is
false. -/
theorem C7_counterexample_connection_still_open :
    ((MainWindow.construct emptyDatabase "geo" "ws").closeEvent
      ).db_manager.db.isOpen = true := rfl

/-- C7 (amended): the connection is opened once at window construction,
but `closeEvent` leaves the database manager — and hence the open
connection — untouched; the connection would only be closed by the
module-level `close_database`, which nothing in the repository calls. -/
theorem C7_connection_lifecycle :
    (∀ (d : Database) (geo ws : String),
      (MainWindow.construct d geo ws).db_manager.db.isOpen = true) ∧
    (∀ w : MainWindow, w.closeEvent.db_manager = w.db_manager) ∧
    (∀ dm : DataManager, (close_database dm).db.isOpen = false) := by
  refine ⟨fun d geo ws => rfl, fun w => rfl, fun dm => ?_⟩
  by_cases h : dm.db.isOpen <;> simp [close_database, h]

/-- Witness for C2 on the empty table with the spec's round-trip input:
the inserted row reads back verbatim and its id is 1. -/
theorem C2_insert_appends_one_row_witness :
    ∃ row : AltmanRow,
      insert_into_altman_table Fault.ok ⟨[]⟩ "2024-01-01" "10:00"
          1 2 0 3 4 10 =
        (⟨(⟨[]⟩ : AltmanTable).rows ++ [row]⟩, []) ∧
      row.altman_date = "2024-01-01" ∧ row.altman_time = "10:00" ∧
      row.altman_question = 1 ∧ row.altman_question_2 = 2 ∧
      row.altman_question_3 = 0 ∧ row.altman_question_4 = 3 ∧
      row.altman_question_5 = 4 ∧ row.altmans_summary = 10 ∧
      ((⟨[]⟩ : AltmanTable).rows = [] → row.id = 1) ∧
      (∀ r ∈ (⟨[]⟩ : AltmanTable).rows, r.id < row.id) ∧
      ((⟨[]⟩ : AltmanTable).rows ≠ [] →
        ∃ r ∈ (⟨[]⟩ : AltmanTable).rows, row.id = r.id + 1) :=
  C2_insert_appends_one_row ⟨[]⟩ "2024-01-01" "10:00" 1 2 0 3 4 10
